import Mathlib

/-!
Shallow embedding of the tree-crasher fuzzer core
(crates/tree-crasher/src/lib.rs) and verification of its specification.

The stateful parts of the program (process spawning, filesystem writes,
logging) are modelled as an explicit event trace: each source operation that
touches the outside world is recorded as an `Event`.  The outcome of each
fallible external call (spawn, wait, write, parse, reduce) is supplied by an
environment record, so the pure Lean functions below mirror the source
control flow exactly on every branch.
-/

namespace TreeCrasher

/-- One observable action of the program, in emission order.  An `eprintln`
or `println` becomes a log event, an `fs::write` that succeeds becomes a
`write` event, invoking `treereduce_multi_pass` becomes `reduce`, a Rust
panic (an `unwrap` of a failed operation, or an integer division by zero)
becomes `panic` and terminates the worker. -/
inductive Event where
  | spawn (inp : List Nat)
  | logSpawnError
  | logSignal (s : Int)
  | logInteresting
  | write (name : String) (contents : List Nat)
  | reduce
  | logReduceFailed
  | printExecsPerSec (n : Nat)
  | logNoFiles
  | warnRadamsaThreads
  | panic
  deriving DecidableEq, Repr

/-- The exit status of the child process, as seen through
`std::process::ExitStatus`: `code` is `None` when the child was killed by a
signal, `signal` is `None` when it exited normally. -/
structure ExitStatus where
  exitCode : Option Int
  signal : Option Int
  deriving DecidableEq, Repr

/-- Environment for one call of `check`: the outcome of every fallible
external operation the source performs for one candidate, in program order.
`spawnOk` is whether `chk.start(inp)` returns `Ok`; `waitOk` whether
`chk.wait_with_output(state)` returns `Ok`; `interesting` and `status`,
`stdout`, `stderr` are what the wait returns; the `write*Ok` flags are the
outcomes of the corresponding `fs::write` calls; `parseOk` is whether
re-parsing the candidate succeeds; `reduceResult` is `some reduced` when
`treereduce_multi_pass` returns `Ok`; `uuid` is the fresh identifier from
`Uuid::new_v4()`. -/
structure CheckEnv where
  spawnOk : Bool
  waitOk : Bool
  interesting : Bool
  status : Option ExitStatus
  stdout : List Nat
  stderr : List Nat
  writeOutOk : Bool
  writeStdoutOk : Bool
  writeStderrOk : Bool
  parseOk : Bool
  reduceResult : Option (List Nat)
  writeReducedOk : Bool
  uuid : String
  deriving DecidableEq, Repr

/-- `status.and_then(|s| s.code()).unwrap_or(-1)` from the source. -/
def exitCodeOf (env : CheckEnv) : Int :=
  (env.status.bind ExitStatus.exitCode).getD (-1)

/-- `status.and_then(|s| s.signal())` from the source. -/
def signalOf (env : CheckEnv) : Option Int :=
  env.status.bind ExitStatus.signal

/-- The `crash-<id>.out` write event carrying the candidate bytes. -/
def wOut (env : CheckEnv) (inp : List Nat) : Event :=
  Event.write ("crash-" ++ env.uuid ++ ".out") inp

/-- The `crash-<id>.stdout` write event. -/
def wStdout (env : CheckEnv) : Event :=
  Event.write ("crash-" ++ env.uuid ++ ".stdout") env.stdout

/-- The `crash-<id>.stderr` write event. -/
def wStderr (env : CheckEnv) : Event :=
  Event.write ("crash-" ++ env.uuid ++ ".stderr") env.stderr

/-- The triage tail of `check`: the three artefact writes (each an
`fs::write(...).unwrap()`, so a failure panics), the
`parse(...).unwrap()`, the call of `treereduce_multi_pass`, and on success
the `crash-<id>.reduced.out` write.  Returns the emitted events and the
value `check` returns (`none` models a panic). -/
def triageEvents (env : CheckEnv) (inp : List Nat) (logEv : Event) (code : Int) :
    List Event × Option Int :=
  match env.writeOutOk with
  | false => ([logEv, Event.panic], none)
  | true =>
    match env.writeStdoutOk with
    | false => ([logEv, wOut env inp, Event.panic], none)
    | true =>
      match env.writeStderrOk with
      | false => ([logEv, wOut env inp, wStdout env, Event.panic], none)
      | true =>
        match env.parseOk with
        | false => ([logEv, wOut env inp, wStdout env, wStderr env, Event.panic], none)
        | true =>
          match env.reduceResult with
          | none =>
            ([logEv, wOut env inp, wStdout env, wStderr env,
              Event.reduce, Event.logReduceFailed], some code)
          | some reduced =>
            match env.writeReducedOk with
            | false =>
              ([logEv, wOut env inp, wStdout env, wStderr env,
                Event.reduce, Event.panic], none)
            | true =>
              ([logEv, wOut env inp, wStdout env, wStderr env, Event.reduce,
                Event.write ("crash-" ++ env.uuid ++ ".reduced.out") reduced], some code)

/-- Prepend the spawn event to a triage result. -/
def withSpawn (inp : List Nat) (p : List Event × Option Int) :
    List Event × Option Int :=
  (Event.spawn inp :: p.1, p.2)

/-- The `check` function of the source, one oracle call plus triage.
Mirrors the source branch for branch: a spawn failure logs and returns
`-1`; the wait is unwrapped (panic on failure); then, when the verdict is
interesting or the child was signal-killed, signal 6 returns the exit code
at once, any other signal logs `signal s` and a plain interesting verdict
logs `interesting`, after which the triage writes and reduction run. -/
def check (env : CheckEnv) (inp : List Nat) : List Event × Option Int :=
  match env.spawnOk with
  | false => ([Event.spawn inp, Event.logSpawnError], some (-1))
  | true =>
    match env.waitOk with
    | false => ([Event.spawn inp, Event.panic], none)
    | true =>
      let code := exitCodeOf env
      match signalOf env with
      | some s =>
        if s = 6 then ([Event.spawn inp], some code)
        else withSpawn inp (triageEvents env inp (Event.logSignal s) code)
      | none =>
        if env.interesting then
          withSpawn inp (triageEvents env inp Event.logInteresting code)
        else ([Event.spawn inp], some code)

/-- Whether an event is an oracle invocation. -/
def isSpawn : Event → Bool
  | Event.spawn _ => true
  | _ => false

/-- Whether an event is a successful artefact write. -/
def isWrite : Event → Bool
  | Event.write _ _ => true
  | _ => false

/-- Number of oracle invocations recorded in a trace. -/
def countSpawns (evs : List Event) : Nat :=
  (evs.filter isSpawn).length

/-- Number of artefact writes recorded in a trace. -/
def countWrites (evs : List Event) : Nat :=
  (evs.filter isWrite).length

/-! ### Command-line arguments and oracle construction -/

/-- The `Args` record, the clap-parsed command line of the source.  The
parsed syntax tree of a seed is an external handle; it is modelled as a
`Nat` tag.  The trailing oracle command is the field `check_cmd` (named
`check` in the source, renamed to avoid shadowing the function above). -/
structure Args where
  chaos : Nat
  deletions : Nat
  max_size : Nat
  mutations : Nat
  radamsa : Bool
  debug : Bool
  interesting_exit_code : List Int
  interesting_stdout : Option String
  interesting_stderr : Option String
  uninteresting_stdout : Option String
  uninteresting_stderr : Option String
  jobs : Nat
  output : String
  seed : Nat
  timeout : Nat
  files : String
  check_cmd : List String
  deriving DecidableEq, Repr

/-- The `CmdCheck` value constructed by `make_check` and handed to
`treereduce::CmdCheck::new`.  Regex compilation is external; the pattern
strings passed to `Regex::new` are kept verbatim. -/
structure CmdCheck where
  cmd : String
  argv : List String
  interestingExitCodes : List Int
  tempDir : Option String
  stdoutPattern : Option String
  stderrPattern : Option String
  unStdoutPattern : Option String
  unStderrPattern : Option String
  inheritStdout : Bool
  inheritStderr : Bool
  timeout : Option Nat
  deriving DecidableEq, Repr

/-- `default_interesting_patterns` from `make_check`. -/
def defaultInterestingPatterns : List String :=
  ["AddressSanitizer", "Fatal", "DCHECK", "Check"]

/-- `default_uninteresting_patterns` from `make_check`. -/
def defaultUninterestingPatterns : List String :=
  ["RangeError", "SyntaxError", "ReferenceError", "TypeError",
   "URIError", "EvalError", "InternalError"]

/-- `interesting_exit_codes.extend(128..256)` from `make_check`: the list
of integers 128, 129, ..., 255 appended to the user-supplied codes. -/
def signalExitCodes : List Int :=
  (List.range 128).map (fun k : Nat => 128 + (k : Int))

/-- The `make_check` function of the source.  An empty oracle command makes
the process exit with code 1, modelled as `none`; otherwise the head of the
command is the executable, the tail the argument list, each missing pattern
falls back to the joined default list, the user exit codes are extended
with `128..256`, and the debug flag selects inherited child stdio. -/
def make_check (debug : Bool) (timeout : Nat) (check_cmd : List String)
    (interesting_exit_codes : List Int)
    (interesting_stdout interesting_stderr : Option String)
    (uninteresting_stdout uninteresting_stderr : Option String) :
    Option CmdCheck :=
  match check_cmd with
  | [] => none
  | cmd :: argv =>
    let stdoutPattern := match interesting_stdout with
      | some r => some r
      | none => some (String.intercalate "|" defaultInterestingPatterns)
    let stderrPattern := match interesting_stderr with
      | some r => some r
      | none => some (String.intercalate "|" defaultInterestingPatterns)
    let unStdoutPattern := match uninteresting_stdout with
      | some r => some r
      | none => some (String.intercalate "|" defaultUninterestingPatterns)
    let unStderrPattern := match uninteresting_stderr with
      | some r => some r
      | none => some (String.intercalate "|" defaultUninterestingPatterns)
    some
      { cmd := cmd
      , argv := argv
      , interestingExitCodes := interesting_exit_codes ++ signalExitCodes
      , tempDir := none
      , stdoutPattern := stdoutPattern
      , stderrPattern := stderrPattern
      , unStdoutPattern := unStdoutPattern
      , unStderrPattern := unStderrPattern
      , inheritStdout := debug
      , inheritStderr := debug
      , timeout := some timeout }

/-! ### Seed corpus loading -/

/-- One directory entry of the seed-loading loop in `main`, together with
the outcome of the external operations on it: the `read_dir` iterator may
yield an `Err` entry, `read_file` may fail, `parse` may fail, or both
succeed yielding contents and a tree handle. -/
inductive SeedEntry where
  | entryErr
  | readErr (path : String)
  | parseErr (path : String) (contents : List Nat)
  | parsed (path : String) (contents : List Nat) (tree : Nat)
  deriving DecidableEq, Repr

/-- The error with which `main` returns when loading fails. -/
inductive LoadError where
  | dirEntry
  | parse
  deriving DecidableEq, Repr

/-- The seed-loading loop of `main`.  `let entry = entry?` propagates a
directory-entry error; `if let Ok(s) = read_file(&path)` skips a file that
fails to read; `let tree = parse(language, &s)?` propagates a parse
failure out of `main`; a fully parsed file is inserted into the corpus. -/
def loadSeeds : List SeedEntry → Except LoadError (List (String × List Nat × Nat))
  | [] => Except.ok []
  | SeedEntry.entryErr :: _ => Except.error LoadError.dirEntry
  | SeedEntry.readErr _ :: rest => loadSeeds rest
  | SeedEntry.parseErr _ _ :: _ => Except.error LoadError.parse
  | SeedEntry.parsed p c t :: rest =>
    (loadSeeds rest).map (fun fs => (p, c, t) :: fs)

/-! ### The worker loop -/

/-- `BATCH` from the source. -/
def BATCH : Nat := 100000

/-- `usize::MAX`, the reparse interval meaning "never". -/
def USIZE_MAX : Nat := 2 ^ 64 - 1

/-- `rng.gen_range(lo..hi)`: a fresh uniform draw `r` reduced into the
half-open range `[lo, hi)`. -/
def gen_range (lo hi r : Nat) : Nat := lo + r % (hi - lo)

/-- The four fresh per-batch draws of the worker loop, in the order the
source takes them from the thread RNG. -/
structure BatchRng where
  interSplicesDraw : Nat
  seedDraw : Nat
  chaosDraw : Nat
  deletionsDraw : Nat
  deriving DecidableEq, Repr

/-- The `tree_splicer::splice::Config` record. -/
structure SplConfig where
  chaos : Nat
  deletions : Nat
  inter_splices : Nat
  max_size : Nat
  reparse : Nat
  seed : Nat
  deriving DecidableEq, Repr

/-- The per-batch mutator configuration built at the top of the worker
loop in `job`: `chaos`, `deletions`, `inter_splices` and `seed` come from
fresh draws over `15..20`, `10..20`, `12..48` and the full `u64` range
(the commented-out `args.chaos`, `args.deletions`, `args.mutations`,
`args.seed` are not read), `max_size` is taken from the arguments and
`reparse` is `usize::MAX`. -/
def batchConfig (args : Args) (rng : BatchRng) : SplConfig :=
  { chaos := gen_range 15 20 rng.chaosDraw
  , deletions := gen_range 10 20 rng.deletionsDraw
  , inter_splices := gen_range 12 48 rng.interSplicesDraw
  , max_size := args.max_size
  , reparse := USIZE_MAX
  , seed := rng.seedDraw % 2 ^ 64 }

/-- `a / b` with the Rust panicking semantics of integer division:
`none` when the divisor is zero. -/
def rustDiv (a b : Nat) : Option Nat :=
  if b = 0 then none else some (a / b)

/-- The throughput report at the bottom of the batch loop:
`if execs % 10_00 == 0 { println!("execs/sec: {}", execs / secs) }`
where `secs` is `start.elapsed().as_secs()`, the whole seconds since batch
start.  `none` models the division-by-zero panic. -/
def reportThroughput (execs secs : Nat) : Option (List Event) :=
  if execs % 1000 = 0 then
    match rustDiv execs secs with
    | none => none
    | some q => some [Event.printExecsPerSec q]
  else some []

/-- One splicer output inside a batch: the mutant bytes, the environment
of its `check` call, and the whole seconds elapsed when its throughput
report point is reached. -/
structure OutStep where
  env : CheckEnv
  out : List Nat
  secs : Nat
  deriving Repr

/-- The batch loop of `job`: `for (i, out) in Splicer::new(config, files)
.enumerate()`, breaking when `i == BATCH`, calling `check` on each output,
incrementing `execs` and printing the throughput report.  A panic inside
`check` or in the report ends the trace. -/
def runOuts : Nat → Nat → List OutStep → List Event
  | _, _, [] => []
  | i, execs, step :: rest =>
    if i = BATCH then []
    else
      match check step.env step.out with
      | (evs, none) => evs
      | (evs, some _) =>
        match reportThroughput (execs + 1) step.secs with
        | none => evs ++ [Event.panic]
        | some revs => evs ++ revs ++ runOuts (i + 1) (execs + 1) rest

/-- The environment of one batch iteration of the outer `loop` in `job`:
the fresh RNG draws and the stream of splicer outputs (the infinite stream
observed up to a finite point). -/
structure BatchEnv where
  rng : BatchRng
  outs : List OutStep

/-- One iteration of the outer `loop` in `job`: draw the parameters,
build the config (which only parameterises the external splicer) and run
the batch loop from index 0 with `execs = 0`. -/
def runBatch (b : BatchEnv) : List Event :=
  runOuts 0 0 b.outs

/-- The outer infinite `loop` of `job`, observed for a finite list of
batch environments; a panic in a batch terminates the worker. -/
def runBatches : List BatchEnv → List Event
  | [] => []
  | b :: rest =>
    let evs := runBatch b
    if evs.contains Event.panic then evs else evs ++ runBatches rest

/-- The `job` function of the source (grammar-aware path): an empty corpus
logs `No files provided.` and returns at once; otherwise the worker enters
the batch loop. -/
def job (files : List (String × List Nat × Nat)) (batches : List BatchEnv) :
    List Event :=
  if files.isEmpty then [Event.logNoFiles]
  else runBatches batches

/-! ### Worker-count determination in `main` -/

/-- The `jobs` binding of `main` when the crate is compiled without the
radamsa feature: 1 in debug mode, else the requested job count. -/
def jobsWithoutRadamsaFeature (args : Args) : Nat :=
  if args.debug then 1 else args.jobs

/-- The `jobs` binding of `main` when the crate is compiled with the
radamsa feature: in debug mode, warn when the requested job count is not 1
and use 1; otherwise use the requested job count unchanged.  The second
component records whether the `[WARN] Radamsa can only be used with one
thread.` line is printed.  Note the guard is `args.debug`, not
`args.radamsa`. -/
def jobsWithRadamsaFeature (args : Args) : Nat × Bool :=
  if args.debug then (1, args.jobs != 1) else (args.jobs, false)

/-! ### Concrete environments used to evaluate the model -/

/-- Whether the triage branch of `check` is entered with artefact writes:
the verdict is interesting or the child was signal-killed, and the signal
is not 6. -/
def triaged (env : CheckEnv) : Bool :=
  (env.interesting || (signalOf env).isSome) && (signalOf env != some 6)

/-- A check environment in which everything succeeds and the child is
killed by signal 6 (SIGABRT). -/
def env6 : CheckEnv :=
  { spawnOk := true, waitOk := true, interesting := true
  , status := some { exitCode := none, signal := some 6 }
  , stdout := [70], stderr := [71]
  , writeOutOk := true, writeStdoutOk := true, writeStderrOk := true
  , parseOk := true, reduceResult := some [49], writeReducedOk := true
  , uuid := "u" }

/-- Like `env6` but the child exits normally with code 1 and the verdict
is interesting; the whole triage pipeline succeeds. -/
def envOk : CheckEnv :=
  { env6 with status := some { exitCode := some 1, signal := none } }

/-- Like `envOk` but `chk.wait_with_output` fails. -/
def envWaitFail : CheckEnv :=
  { envOk with waitOk := false }

/-- Like `envOk` but the `crash-<id>.out` write fails. -/
def envWriteOutFail : CheckEnv :=
  { envOk with writeOutOk := false }

/-- Like `envOk` but `chk.start` fails to spawn the child. -/
def envSpawnFail : CheckEnv :=
  { envOk with spawnOk := false }

/-- The clap defaults of `Args`, with a four-job run on a `sh` oracle. -/
def argsDefault : Args :=
  { chaos := 5, deletions := 5, max_size := 1048576, mutations := 16
  , radamsa := false, debug := false
  , interesting_exit_code := [], interesting_stdout := none
  , interesting_stderr := none, uninteresting_stdout := none
  , uninteresting_stderr := none, jobs := 4, output := "tree-crasher.out"
  , seed := 0, timeout := 500, files := "seeds", check_cmd := ["sh"] }

/-- `argsDefault` with user-supplied mutation flags, identical max size. -/
def argsUserMutation : Args :=
  { argsDefault with chaos := 99, deletions := 77, mutations := 3, seed := 123 }

/-- `argsDefault` with radamsa requested, debug off and four jobs. -/
def argsRadamsaMulti : Args :=
  { argsDefault with radamsa := true, debug := false, jobs := 4 }

/-- Concrete per-batch RNG draws. -/
def rngA : BatchRng :=
  { interSplicesDraw := 100, seedDraw := 2 ^ 70 + 5, chaosDraw := 7
  , deletionsDraw := 13 }

/-! ## Helper lemmas -/

/-- If any of the three artefact writes or the re-parse fails, the triage
tail panics: it returns no value and its trace contains a panic event. -/
theorem triageEvents_panic (env : CheckEnv) (inp : List Nat) (logEv : Event)
    (code : Int)
    (hfail : env.writeOutOk = false ∨ env.writeStdoutOk = false ∨
             env.writeStderrOk = false ∨ env.parseOk = false) :
    (triageEvents env inp logEv code).2 = none ∧
    Event.panic ∈ (triageEvents env inp logEv code).1 := by
  cases h1 : env.writeOutOk <;> cases h2 : env.writeStdoutOk <;>
    cases h3 : env.writeStderrOk <;> cases h4 : env.parseOk <;>
    simp_all [triageEvents]

/-- When the triage tail reaches the reducer, its trace is exactly the log
event, the three artefact writes, the reduce event and a final event. -/
theorem triageEvents_reduce_split (env : CheckEnv) (inp : List Nat)
    (logEv : Event) (code : Int) (hlog : logEv ≠ Event.reduce)
    (h : Event.reduce ∈ (triageEvents env inp logEv code).1) :
    ∃ post, (triageEvents env inp logEv code).1 =
      [logEv, wOut env inp, wStdout env, wStderr env] ++ Event.reduce :: post := by
  cases h1 : env.writeOutOk <;> cases h2 : env.writeStdoutOk <;>
    cases h3 : env.writeStderrOk <;> cases h4 : env.parseOk <;>
    rcases h5 : env.reduceResult with _ | red <;>
    cases h6 : env.writeReducedOk <;>
    simp_all [triageEvents, wOut, wStdout, wStderr]

/-- The triage tail contains no spawn event when its log event is not one. -/
theorem countSpawns_triageEvents (env : CheckEnv) (inp : List Nat)
    (logEv : Event) (code : Int) (hlog : isSpawn logEv = false) :
    countSpawns (triageEvents env inp logEv code).1 = 0 := by
  cases h1 : env.writeOutOk <;> cases h2 : env.writeStdoutOk <;>
    cases h3 : env.writeStderrOk <;> cases h4 : env.parseOk <;>
    rcases h5 : env.reduceResult with _ | red <;>
    cases h6 : env.writeReducedOk <;>
    simp_all [triageEvents, countSpawns, isSpawn, wOut, wStdout, wStderr,
      List.filter]

/-- Every call of `check` records exactly one oracle invocation. -/
theorem countSpawns_check (env : CheckEnv) (inp : List Nat) :
    countSpawns (check env inp).1 = 1 := by
  have h0 : ∀ l : List Event, countSpawns (Event.spawn inp :: l) =
      1 + countSpawns l := by
    intro l
    simp [countSpawns, isSpawn, List.filter]
    omega
  cases hs : env.spawnOk
  · simp [check, hs, countSpawns, isSpawn, List.filter]
  · cases hw : env.waitOk
    · simp [check, hs, hw, countSpawns, isSpawn, List.filter]
    · rcases hsig : signalOf env with _ | s
      · cases hint : env.interesting
        · simp [check, hs, hw, hsig, hint, countSpawns, isSpawn, List.filter]
        · have ht := countSpawns_triageEvents env inp Event.logInteresting
            (exitCodeOf env) rfl
          simp [check, hs, hw, hsig, hint, withSpawn, h0, ht]
      · by_cases h6 : s = 6
        · simp [check, hs, hw, hsig, h6, countSpawns, isSpawn, List.filter]
        · have ht := countSpawns_triageEvents env inp (Event.logSignal s)
            (exitCodeOf env) rfl
          simp [check, hs, hw, hsig, h6, withSpawn, h0, ht]

/-! ## Claim C1 -/

/-- Claim C1, counterexample: when the child is terminated by signal 6
with every external operation succeeding, `check` emits no write event at
all — the crash artefact files are not written, contrary to the claim. -/
theorem C1_counterexample :
    (check env6 [49]).1 = [Event.spawn [49]] ∧
    countWrites (check env6 [49]).1 = 0 := by
  constructor <;> rfl

/-- Claim C1 (amended): when the child is terminated by signal 6, `check`
returns the exit code immediately — no crash artefact is written and no
signal line is logged; for every other fatal signal a `signal s` line is
logged and the three crash artefact files are written (when the writes
succeed). -/
theorem C1_signal6_amended (env : CheckEnv) (inp : List Nat)
    (hs : env.spawnOk = true) (hw : env.waitOk = true) :
    (signalOf env = some 6 →
      check env inp = ([Event.spawn inp], some (exitCodeOf env))) ∧
    (∀ s : Int, signalOf env = some s → s ≠ 6 →
      env.writeOutOk = true → env.writeStdoutOk = true →
      env.writeStderrOk = true →
      Event.logSignal s ∈ (check env inp).1 ∧
      wOut env inp ∈ (check env inp).1 ∧
      wStdout env ∈ (check env inp).1 ∧
      wStderr env ∈ (check env inp).1) := by
  constructor
  · intro h6
    simp [check, hs, hw, h6]
  · intro s hsig hne h1 h2 h3
    cases hp : env.parseOk <;> rcases hr : env.reduceResult with _ | red <;>
      cases hwr : env.writeReducedOk <;>
      simp [check, hs, hw, hsig, hne, withSpawn, triageEvents, h1, h2, h3,
        hp, hr, hwr]

/-- Claim C1, witness: the amended theorem evaluated at the concrete
signal-6 environment. -/
theorem C1_witness :
    check env6 [49] = ([Event.spawn [49]], some (-1)) :=
  (C1_signal6_amended env6 [49] rfl rfl).1 rfl

/-! ## Claim C2 -/

/-- Claim C2, counterexample: a seed directory whose single entry fails to
parse makes loading return an error — `main` exits with an error instead
of silently skipping the file. -/
theorem C2_counterexample :
    loadSeeds [SeedEntry.parseErr "a.js" [49]] =
      Except.error LoadError.parse := rfl

/-- Claim C2 (amended): a seed file that fails to read is silently skipped
and loading continues with the remaining entries; a seed file that fails
to parse (and likewise a failing directory entry) aborts startup with an
error. -/
theorem C2_load_amended :
    (∀ (path : String) (rest : List SeedEntry),
      loadSeeds (SeedEntry.readErr path :: rest) = loadSeeds rest) ∧
    (∀ (path : String) (c : List Nat) (rest : List SeedEntry),
      loadSeeds (SeedEntry.parseErr path c :: rest) =
        Except.error LoadError.parse) ∧
    (∀ rest : List SeedEntry,
      loadSeeds (SeedEntry.entryErr :: rest) =
        Except.error LoadError.dirEntry) :=
  ⟨fun _ _ => rfl, fun _ _ _ => rfl, fun _ => rfl⟩

/-- Claim C2, witness: the amended theorem evaluated at concrete entry
lists. -/
theorem C2_witness :
    loadSeeds [SeedEntry.readErr "a", SeedEntry.parsed "b" [49] 0] =
      loadSeeds [SeedEntry.parsed "b" [49] 0] ∧
    loadSeeds [SeedEntry.parseErr "c" [50]] = Except.error LoadError.parse :=
  ⟨C2_load_amended.1 "a" [SeedEntry.parsed "b" [49] 0],
   C2_load_amended.2.1 "c" [50] []⟩

/-! ## Claim C3 -/

/-- Claim C3, counterexample: when waiting on the child output fails, the
worker panics (the trace ends in a panic and `check` returns no value)
instead of logging and continuing. -/
theorem C3_counterexample :
    check envWaitFail [49] = ([Event.spawn [49], Event.panic], none) := rfl

/-- Claim C3 (amended): inside the worker loop, a failure while waiting on
the child output, or a failure of any of the three triage artefact writes
or of the re-parse, panics and terminates the worker (the trace contains a
panic and `check` returns no value); only spawn failures and reducer
failures are logged and survived. -/
theorem C3_worker_fatal_amended (env : CheckEnv) (inp : List Nat)
    (hs : env.spawnOk = true) :
    (env.waitOk = false →
      check env inp = ([Event.spawn inp, Event.panic], none)) ∧
    (env.waitOk = true → triaged env = true →
      (env.writeOutOk = false ∨ env.writeStdoutOk = false ∨
       env.writeStderrOk = false ∨ env.parseOk = false) →
      (check env inp).2 = none ∧ Event.panic ∈ (check env inp).1) := by
  constructor
  · intro hw
    simp [check, hs, hw]
  · intro hw ht hfail
    rcases hsig : signalOf env with _ | s
    · have hint : env.interesting = true := by
        simp [triaged, hsig] at ht
        exact ht
      obtain ⟨ha, hb⟩ := triageEvents_panic env inp Event.logInteresting
        (exitCodeOf env) hfail
      constructor
      · simp [check, hs, hw, hsig, hint, withSpawn, ha]
      · simp [check, hs, hw, hsig, hint, withSpawn]
        exact hb
    · have hs6 : ¬ s = 6 := by
        simp [triaged, hsig] at ht
        exact ht
      obtain ⟨ha, hb⟩ := triageEvents_panic env inp (Event.logSignal s)
        (exitCodeOf env) hfail
      constructor
      · simp [check, hs, hw, hsig, hs6, withSpawn, ha]
      · simp [check, hs, hw, hsig, hs6, withSpawn]
        exact hb

/-- Claim C3, witness: the amended theorem evaluated at the concrete
environment in which the `crash-<id>.out` write fails. -/
theorem C3_witness :
    (check envWriteOutFail [49]).2 = none ∧
    Event.panic ∈ (check envWriteOutFail [49]).1 :=
  (C3_worker_fatal_amended envWriteOutFail [49] rfl).2 rfl rfl (Or.inl rfl)

/-! ## Claim C9 -/

/-- Claim C9: if spawning the child fails, the failure is logged, `check`
returns the sentinel code `-1` without any triage (no artefact write
event) and without panicking, so the worker continues with the next
candidate. -/
theorem C9_spawn_failure (env : CheckEnv) (inp : List Nat)
    (h : env.spawnOk = false) :
    check env inp = ([Event.spawn inp, Event.logSpawnError], some (-1)) ∧
    countWrites (check env inp).1 = 0 ∧
    Event.panic ∉ (check env inp).1 := by
  refine ⟨by simp [check, h], ?_, ?_⟩ <;>
    simp [check, h, countWrites, isWrite, List.filter]

/-- Claim C9, witness: the theorem evaluated at the concrete environment
whose spawn fails. -/
theorem C9_witness :
    check envSpawnFail [49] =
      ([Event.spawn [49], Event.logSpawnError], some (-1)) :=
  (C9_spawn_failure envSpawnFail [49] rfl).1

/-! ## Claim C4 -/

/-- Claim C4: whenever the tree reducer is invoked for a candidate, the
trace splits around the (unique, first) reduce event so that the writes of
`crash-<id>.out` (with exactly the candidate bytes submitted to the
child), `crash-<id>.stdout` and `crash-<id>.stderr` all occur strictly
before it — the artefacts are persisted before reduction begins. -/
theorem C4_artefacts_before_reduce (env : CheckEnv) (inp : List Nat)
    (h : Event.reduce ∈ (check env inp).1) :
    ∃ pre post, (check env inp).1 = pre ++ Event.reduce :: post ∧
      Event.reduce ∉ pre ∧
      Event.spawn inp ∈ pre ∧
      wOut env inp ∈ pre ∧ wStdout env ∈ pre ∧ wStderr env ∈ pre := by
  cases hs : env.spawnOk
  · simp [check, hs] at h
  · cases hw : env.waitOk
    · simp [check, hs, hw] at h
    · rcases hsig : signalOf env with _ | s
      · cases hint : env.interesting
        · simp [check, hs, hw, hsig, hint] at h
        · simp only [check, hs, hw, hsig, hint, withSpawn, if_true] at h ⊢
          have hmem : Event.reduce ∈
              (triageEvents env inp Event.logInteresting (exitCodeOf env)).1 := by
            simpa using h
          obtain ⟨post, hsplit⟩ := triageEvents_reduce_split env inp
            Event.logInteresting (exitCodeOf env) (by simp) hmem
          refine ⟨Event.spawn inp ::
            [Event.logInteresting, wOut env inp, wStdout env, wStderr env],
            post, ?_, ?_, ?_, ?_, ?_, ?_⟩ <;>
            simp [hsplit, wOut, wStdout, wStderr]
      · by_cases h6 : s = 6
        · simp [check, hs, hw, hsig, h6] at h
        · simp only [check, hs, hw, hsig, h6, if_neg h6, withSpawn] at h ⊢
          have hmem : Event.reduce ∈
              (triageEvents env inp (Event.logSignal s) (exitCodeOf env)).1 := by
            simpa using h
          obtain ⟨post, hsplit⟩ := triageEvents_reduce_split env inp
            (Event.logSignal s) (exitCodeOf env) (by simp) hmem
          refine ⟨Event.spawn inp ::
            [Event.logSignal s, wOut env inp, wStdout env, wStderr env],
            post, ?_, ?_, ?_, ?_, ?_, ?_⟩ <;>
            simp [hsplit, wOut, wStdout, wStderr]

/-- Claim C4, witness: the theorem evaluated at the fully successful
concrete environment, in which the reducer runs. -/
theorem C4_witness :
    Event.reduce ∈ (check envOk [49]).1 ∧
    ∃ pre post, (check envOk [49]).1 = pre ++ Event.reduce :: post ∧
      Event.reduce ∉ pre ∧
      Event.spawn [49] ∈ pre ∧
      wOut envOk [49] ∈ pre ∧ wStdout envOk ∈ pre ∧ wStderr envOk ∈ pre :=
  ⟨by decide, C4_artefacts_before_reduce envOk [49] (by decide)⟩

/-! ## Claim C5 -/

/-- Claim C5: for every user-supplied list of interesting exit codes (and
every other configuration), the constructed oracle carries that list
extended with exactly the integers 128..256. -/
theorem C5_exit_codes (debug : Bool) (timeout : Nat) (cmd : String)
    (argv : List String) (codes : List Int) (s1 s2 u1 u2 : Option String) :
    (make_check debug timeout (cmd :: argv) codes s1 s2 u1 u2).map
        CmdCheck.interestingExitCodes = some (codes ++ signalExitCodes) ∧
    (∀ c : Int, c ∈ codes ++ signalExitCodes ↔
      c ∈ codes ∨ (128 ≤ c ∧ c < 256)) := by
  constructor
  · rfl
  · intro c
    simp only [List.mem_append, signalExitCodes, List.mem_map,
      List.mem_range]
    constructor
    · rintro (hc | ⟨k, hk, rfl⟩)
      · exact Or.inl hc
      · exact Or.inr (by constructor <;> omega)
    · rintro (hc | ⟨h1, h2⟩)
      · exact Or.inl hc
      · exact Or.inr ⟨(c - 128).toNat, by omega, by omega⟩

/-- Claim C5, witness: the theorem evaluated at a concrete oracle command
and a single user-supplied code 42. -/
theorem C5_witness :
    (make_check false 500 ["sh"] [42] none none none none).map
        CmdCheck.interestingExitCodes = some ([42] ++ signalExitCodes) ∧
    (137 ∈ ([42] : List Int) ++ signalExitCodes) :=
  ⟨(C5_exit_codes false 500 "sh" [] [42] none none none none).1,
   ((C5_exit_codes false 500 "sh" [] [42] none none none none).2 137).mpr
     (Or.inr (by norm_num))⟩

/-! ## Claim C8 -/

/-- Claim C8: with an empty seed corpus the worker logs `No files
provided.` and returns immediately — no oracle invocation, no artefact
write, no panic — for every possible sequence of batches. -/
theorem C8_empty_corpus (batches : List BatchEnv) :
    job [] batches = [Event.logNoFiles] ∧
    countSpawns (job [] batches) = 0 ∧
    countWrites (job [] batches) = 0 ∧
    Event.panic ∉ job [] batches := by
  refine ⟨rfl, rfl, rfl, ?_⟩
  simp [job]

/-- Claim C8, witness: the theorem evaluated at the empty batch list. -/
theorem C8_witness :
    job [] [] = [Event.logNoFiles] ∧ countSpawns (job [] []) = 0 :=
  ⟨(C8_empty_corpus []).1, (C8_empty_corpus []).2.1⟩

/-! ## Claim C10 -/

/-- Claim C10: at a report point (the counter is a multiple of 1000) the
throughput report divides the execution counter by the whole elapsed
seconds; it is well defined exactly when at least one second has elapsed,
and with zero elapsed seconds the division by zero panics. -/
theorem C10_throughput (execs secs : Nat) (h : execs % 1000 = 0) :
    ((reportThroughput execs secs).isSome ↔ 1 ≤ secs) ∧
    (1 ≤ secs → reportThroughput execs secs =
      some [Event.printExecsPerSec (execs / secs)]) ∧
    (secs = 0 → reportThroughput execs secs = none) := by
  refine ⟨?_, ?_, ?_⟩
  · cases secs <;> simp [reportThroughput, h, rustDiv]
  · intro hsec
    have : secs ≠ 0 := by omega
    simp [reportThroughput, h, rustDiv, this]
  · intro hsec
    simp [reportThroughput, h, rustDiv, hsec]

/-- Claim C10, witness: the theorem evaluated at concrete report points,
one after two elapsed seconds and one after zero elapsed seconds. -/
theorem C10_witness :
    reportThroughput 2000 2 = some [Event.printExecsPerSec 1000] ∧
    reportThroughput 3000 0 = none :=
  ⟨(C10_throughput 2000 2 (by decide)).2.1 (by decide),
   (C10_throughput 3000 0 (by decide)).2.2 rfl⟩

/-! ## Claim C6 -/

/-- A trace appended to another counts spawns additively. -/
theorem countSpawns_append (a b : List Event) :
    countSpawns (a ++ b) = countSpawns a + countSpawns b := by
  simp [countSpawns, List.filter_append]

/-- A throughput report emits no oracle invocation. -/
theorem countSpawns_reportThroughput (execs secs : Nat) (l : List Event)
    (h : reportThroughput execs secs = some l) : countSpawns l = 0 := by
  unfold reportThroughput rustDiv at h
  by_cases h1 : execs % 1000 = 0 <;> by_cases h2 : secs = 0 <;>
    simp [h1, h2] at h <;> simp [← h, countSpawns, isSpawn] <;>
    simp [h, countSpawns]

/-- The batch loop starting at index `i` submits at most `BATCH - i`
mutants to the oracle. -/
theorem countSpawns_runOuts (outs : List OutStep) (i execs : Nat)
    (hi : i ≤ BATCH) :
    countSpawns (runOuts i execs outs) ≤ BATCH - i := by
  induction outs generalizing i execs with
  | nil => simp [runOuts, countSpawns]
  | cons step rest ih =>
    by_cases hB : i = BATCH
    · simp [runOuts, hB, countSpawns]
    · have hlt : i < BATCH := by omega
      have hone := countSpawns_check step.env step.out
      rcases hc : check step.env step.out with ⟨evs, r⟩
      rw [hc] at hone
      simp only at hone
      rcases r with _ | code
      · simp only [runOuts, if_neg hB, hc]
        omega
      · rcases hrep : reportThroughput (execs + 1) step.secs with _ | revs
        · simp only [runOuts, if_neg hB, hc, hrep]
          rw [countSpawns_append]
          have : countSpawns [Event.panic] = 0 := rfl
          omega
        · have hrev := countSpawns_reportThroughput (execs + 1) step.secs
            revs hrep
          have hrec := ih (i + 1) (execs + 1) (by omega)
          simp only [runOuts, if_neg hB, hc, hrep]
          rw [countSpawns_append, countSpawns_append]
          omega

/-- Claim C6: every batch configuration in grammar mode has an
inter-splice count in [12, 48), a chaos percent in [15, 20), a deletion
percent in [10, 20), a seed reduced to the 64-bit range, the user max
size, and a reparse interval of `usize::MAX` (never); it is independent of
the user-supplied chaos, deletions, mutations and seed flags; and a batch
submits at most 100000 outputs to the oracle before the parameters are
redrawn. -/
theorem C6_batch_parameters (args : Args) (rng : BatchRng) :
    (12 ≤ (batchConfig args rng).inter_splices ∧
      (batchConfig args rng).inter_splices < 48) ∧
    (15 ≤ (batchConfig args rng).chaos ∧ (batchConfig args rng).chaos < 20) ∧
    (10 ≤ (batchConfig args rng).deletions ∧
      (batchConfig args rng).deletions < 20) ∧
    (batchConfig args rng).seed < 2 ^ 64 ∧
    (batchConfig args rng).max_size = args.max_size ∧
    (batchConfig args rng).reparse = USIZE_MAX ∧
    (∀ args2 : Args, args2.max_size = args.max_size →
      batchConfig args2 rng = batchConfig args rng) ∧
    (∀ b : BatchEnv, countSpawns (runBatch b) ≤ BATCH) := by
  have h12 : rng.interSplicesDraw % 36 < 36 := Nat.mod_lt _ (by norm_num)
  have h15 : rng.chaosDraw % 5 < 5 := Nat.mod_lt _ (by norm_num)
  have h10 : rng.deletionsDraw % 10 < 10 := Nat.mod_lt _ (by norm_num)
  have h64 : rng.seedDraw % 2 ^ 64 < 2 ^ 64 :=
    Nat.mod_lt _ (by norm_num)
  refine ⟨⟨?_, ?_⟩, ⟨?_, ?_⟩, ⟨?_, ?_⟩, ?_, rfl, rfl, ?_, ?_⟩
  · simp [batchConfig, gen_range]
  · simp only [batchConfig, gen_range]
    omega
  · simp [batchConfig, gen_range]
  · simp only [batchConfig, gen_range]
    omega
  · simp [batchConfig, gen_range]
  · simp only [batchConfig, gen_range]
    omega
  · simp only [batchConfig]
    exact h64
  · intro args2 hmax
    simp [batchConfig, hmax]
  · intro b
    have := countSpawns_runOuts b.outs 0 0 (by norm_num [BATCH])
    simpa [runBatch] using this

/-- Claim C6, witness: the theorem evaluated at the concrete default
arguments and draws; in particular the config ignores the user mutation
flags (`argsUserMutation` differs from `argsDefault` exactly in chaos,
deletions, mutations and seed). -/
theorem C6_witness :
    batchConfig argsUserMutation rngA = batchConfig argsDefault rngA ∧
    12 ≤ (batchConfig argsDefault rngA).inter_splices :=
  ⟨(C6_batch_parameters argsDefault rngA).2.2.2.2.2.2.1 argsUserMutation rfl,
   (C6_batch_parameters argsDefault rngA).1.1⟩

/-! ## Claim C7 -/

/-- Claim C7: evaluating the worker-count computation (as compiled with
the radamsa feature) at a run that requests radamsa with four jobs and
debug off: the count stays 4 and no warning is printed, because the
source guards the clamp with the debug flag, not the radamsa flag.  The
claim (and the warning text in the source itself) requires the clamp to 1
whenever radamsa is requested. -/
theorem C7_no_clamp_eval :
    jobsWithRadamsaFeature argsRadamsaMulti = (4, false) ∧
    argsRadamsaMulti.radamsa = true ∧
    argsRadamsaMulti.debug = false ∧
    argsRadamsaMulti.jobs = 4 :=
  ⟨rfl, rfl, rfl, rfl⟩

end TreeCrasher
